import Mathlib

/-!
Shallow embedding of `src/wrapper/wasm-ll/src/sign_ot_variant.rs`:
the `SignSessionOTVariant` signing-session state machine, its round
dispatch, the `MessageRouting` implementations for the three
intermediate message kinds, and the session serialization envelope.

The underlying protocol engine (`dkls23_ll::dsg`, `dkls23_ll::dsg_ot_variant`)
is an external collaborator: its state, its per-round handlers and its
message payload types are opaque here, so the embedding is parametric in
them (an `Engine` record of functions and abstract types).  The wrapper
logic itself - round dispatch, error handling, state updates - is
translated directly from the source.
-/

/-- Bytes are modelled as lists of naturals (each intended below 256). -/
abbrev Bytes := List Nat

/-- The `Round` enum of `sign_ot_variant.rs` (lines 22-31): the round
cursor with its per-variant payload.  `Pre` carries a pre-signature,
`WaitMsg4` a partial signature; both payload types are opaque engine
types, hence type parameters. -/
inductive Round (PreSig PartialSig : Type) where
  | Init
  | WaitMsg1
  | WaitMsg2
  | WaitMsg3
  | Pre (pre : PreSig)
  | WaitMsg4 (psig : PartialSig)
  | Failed
  | Finished
  deriving DecidableEq, Repr

/-- The `SignSessionOTVariant` struct (lines 33-38): opaque engine state
plus the round cursor. -/
structure SignSessionOTVariant (St PreSig PartialSig : Type) where
  state : St
  round : Round PreSig PartialSig
  deriving DecidableEq, Repr

/-- Modelled from the spec: the message envelope of the missing
`message.rs` - `\x7b sourcePartyId, destinationPartyId or absent, payload \x7d`
(spec section 3, "Message"). -/
structure Message where
  src_party_id : Nat
  dst_party_id : Option Nat
  payload : Bytes
  deriving DecidableEq, Repr

/-- Modelled from the spec: the `MessageRouting` trait of the missing
`message.rs` - a per-message-type classification resolving the source
party id and the optional destination party id (absent = broadcast). -/
class MessageRouting (α : Type) where
  src_party_id : α → Nat
  dst_party_id : α → Option Nat

/-- The engine's round-1 message type `dsg_ot_variant::SignMsg1`
(external): only the fields the wrapper's routing impl reads are
modelled; the cryptographic body is opaque bytes. -/
structure SignMsg1 where
  from_id : Nat
  body : Bytes
  deriving DecidableEq, Repr

/-- The engine's round-2 message type `dsg_ot_variant::SignMsg2`
(external): fields read by the wrapper's routing impl plus opaque body. -/
structure SignMsg2 where
  from_id : Nat
  to_id : Nat
  body : Bytes
  deriving DecidableEq, Repr

/-- The engine's round-3 message type `dsg_ot_variant::SignMsg3`
(external): fields read by the wrapper's routing impl plus opaque body. -/
structure SignMsg3 where
  from_id : Nat
  to_id : Nat
  body : Bytes
  deriving DecidableEq, Repr

/-- Modelled from the spec: the engine's round-4 message type (external,
no routing impl in this source file); the spec says the last message is
broadcast, so only a sender id and opaque body are carried. -/
structure SignMsg4 where
  from_id : Nat
  body : Bytes
  deriving DecidableEq, Repr

/-- `impl MessageRouting for SignMsg1` (lines 237-245): source is
`from_id`, destination is absent (broadcast). -/
instance : MessageRouting SignMsg1 where
  src_party_id m := m.from_id
  dst_party_id _ := none

/-- `impl MessageRouting for SignMsg2` (lines 247-255): source is
`from_id`, destination is `Some(to_id)` (unicast). -/
instance : MessageRouting SignMsg2 where
  src_party_id m := m.from_id
  dst_party_id m := some m.to_id

/-- `impl MessageRouting for SignMsg3` (lines 257-265): source is
`from_id`, destination is `Some(to_id)` (unicast). -/
instance : MessageRouting SignMsg3 where
  src_party_id m := m.from_id
  dst_party_id m := some m.to_id

/-- Modelled from the spec: round-4 messages are broadcast
("exactly one outbound message (broadcast)", spec section 4.1). -/
instance : MessageRouting SignMsg4 where
  src_party_id m := m.from_id
  dst_party_id _ := none

/-- Modelled from the spec: `Message::new` of the missing `message.rs` -
wraps a typed protocol message into an envelope using its routing
classification and an opaque payload encoder. -/
def Message.new {α : Type} [MessageRouting α] (enc : α → Bytes) (m : α) :
    Message :=
  { src_party_id := MessageRouting.src_party_id m
    dst_party_id := MessageRouting.dst_party_id m
    payload := enc m }

/-- Modelled from the spec: `Message::encode_vector` of the missing
`message.rs` - wraps each typed message into an envelope. -/
def Message.encode_vector {α : Type} [MessageRouting α] (enc : α → Bytes)
    (ms : List α) : List Message :=
  ms.map (Message.new enc)

/-- Errors surfaced by the wrapper, one constructor per distinct
`Error::new` literal in the source, plus the wrapped engine error
produced by `sign_ot_variant_error` (external `errors.rs`). -/
inductive SignError (E : Type) where
  | invalidState
  | invalidSessionState
  | failed
  | invalidMessageHash
  | engine (e : E)
  deriving DecidableEq, Repr

/-- The opaque protocol-engine interface plus the opaque payload codecs
of the missing `message.rs`, bundled as an explicit capability record.
Handlers receive the engine state by value and return the post-call
state alongside the result, mirroring `&mut` state passing; the
randomness of `maybe_seeded_rng(seed)` is modelled by passing the
optional seed through to the seeded handlers. -/
structure Engine (E St PreSig PartialSig Sig : Type) where
  generate_msg1 : St → SignMsg1 × St
  handle_msg1 : St → Option Bytes → List SignMsg1 →
    Except E (List SignMsg2) × St
  handle_msg2 : St → Option Bytes → List SignMsg2 →
    Except E (List SignMsg3) × St
  handle_msg3 : St → List SignMsg3 → Except E PreSig × St
  create_partial_signature : PreSig → Bytes → PartialSig × SignMsg4
  combine_signatures : PartialSig → List SignMsg4 → Except E Sig
  split_bytes : Sig → Bytes × Bytes
  decode1 : List Message → List SignMsg1
  decode2 : List Message → List SignMsg2
  decode3 : List Message → List SignMsg3
  decode4 : List Message → List SignMsg4
  enc1 : SignMsg1 → Bytes
  enc2 : SignMsg2 → Bytes
  enc3 : SignMsg3 → Bytes
  enc4 : SignMsg4 → Bytes

namespace SignSessionOTVariant

variable {E St PreSig PartialSig Sig : Type}

/-- `SignSessionOTVariant::error` (lines 84-90): an error marker exactly
when the round is `Failed`. -/
def error (s : SignSessionOTVariant St PreSig PartialSig) : Option String :=
  match s.round with
  | Round.Failed => some "failed"
  | _ => none

/-- `SignSessionOTVariant::create_first_message` (lines 94-103): in
`Init`, advance to `WaitMsg1` and return the envelope of
`state.generate_msg1()`; in any other round, fail with "invalid state"
and leave the session untouched. -/
def create_first_message (eng : Engine E St PreSig PartialSig Sig)
    (s : SignSessionOTVariant St PreSig PartialSig) :
    Except (SignError E) Message × SignSessionOTVariant St PreSig PartialSig :=
  match s.round with
  | Round.Init =>
    let g := eng.generate_msg1 s.state
    (Except.ok (Message.new eng.enc1 g.1),
     { state := g.2, round := Round.WaitMsg1 })
  | _ => (Except.error SignError.invalidState, s)

/-- The private `handle` helper (lines 105-133): decode the inbound
envelopes, run the engine handler on the state; on success encode the
outbound batch and move to `next`, on engine error move to `Failed` and
surface the wrapped error.  The engine state is updated either way, as
with `&mut self.state` in the source. -/
def handle {T U : Type} [MessageRouting U]
    (s : SignSessionOTVariant St PreSig PartialSig) (msgs : List Message)
    (dec : List Message → List T) (enc : U → Bytes)
    (h : St → List T → Except E (List U) × St)
    (next : Round PreSig PartialSig) :
    Except (SignError E) (List Message) ×
      SignSessionOTVariant St PreSig PartialSig :=
  let tmsgs := dec msgs
  match h s.state tmsgs with
  | (Except.ok out, st') =>
    (Except.ok (Message.encode_vector enc out), { state := st', round := next })
  | (Except.error err, st') =>
    (Except.error (SignError.engine err), { state := st', round := Round.Failed })

/-- `SignSessionOTVariant::handle_messages` (lines 138-174): dispatch on
the current round.  `WaitMsg1` and `WaitMsg2` go through `handle` (which
moves to `Failed` on engine error); `WaitMsg3` is inlined in the source
with a `?` early return, so on engine error the round is left as it was;
`Failed` answers "failed"; every other round answers
"invalid session state". -/
def handle_messages (eng : Engine E St PreSig PartialSig Sig)
    (s : SignSessionOTVariant St PreSig PartialSig)
    (msgs : List Message) (seed : Option Bytes) :
    Except (SignError E) (List Message) ×
      SignSessionOTVariant St PreSig PartialSig :=
  match s.round with
  | Round.WaitMsg1 =>
    handle s msgs eng.decode1 eng.enc2
      (fun st m => eng.handle_msg1 st seed m) Round.WaitMsg2
  | Round.WaitMsg2 =>
    handle s msgs eng.decode2 eng.enc3
      (fun st m => eng.handle_msg2 st seed m) Round.WaitMsg3
  | Round.WaitMsg3 =>
    let tmsgs := eng.decode3 msgs
    match eng.handle_msg3 s.state tmsgs with
    | (Except.ok pre, st') =>
      (Except.ok [], { state := st', round := Round.Pre pre })
    | (Except.error err, st') =>
      (Except.error (SignError.engine err), { state := st', round := s.round })
  | Round.Failed => (Except.error SignError.failed, s)
  | _ => (Except.error SignError.invalidSessionState, s)

/-- `SignSessionOTVariant::last_message` (lines 179-203): reject any
digest whose length is not 32 before looking at the round; in `Pre`,
combine the pre-signature with the digest via
`dsg::create_partial_signature`, move to `WaitMsg4` with the partial
signature and return the round-4 envelope; in any other round restore
the round (the source's `mem::replace` dance) and fail with
"invalid state". -/
def last_message (eng : Engine E St PreSig PartialSig Sig)
    (s : SignSessionOTVariant St PreSig PartialSig)
    (message_hash : Bytes) :
    Except (SignError E) Message ×
      SignSessionOTVariant St PreSig PartialSig :=
  if message_hash.length ≠ 32 then
    (Except.error SignError.invalidMessageHash, s)
  else
    match s.round with
    | Round.Pre pre =>
      let pm := eng.create_partial_signature pre message_hash
      (Except.ok (Message.new eng.enc4 pm.2),
       { state := s.state, round := Round.WaitMsg4 pm.1 })
    | _ => (Except.error SignError.invalidState, s)

/-- `SignSessionOTVariant::combine_partial_signature` (lines 212-234):
valid only in `WaitMsg4`; decode the round-4 batch, combine with the
partial signature and return the `(r, s)` byte pair; any other round
fails with "invalid state".  The Rust method takes `self` by value, so
the session is consumed in every case: accordingly no session is
returned. -/
def combine_partial_signature (eng : Engine E St PreSig PartialSig Sig)
    (s : SignSessionOTVariant St PreSig PartialSig)
    (msgs : List Message) : Except (SignError E) (Bytes × Bytes) :=
  match s.round with
  | Round.WaitMsg4 psig =>
    match eng.combine_signatures psig (eng.decode4 msgs) with
    | Except.ok sign => Except.ok (eng.split_bytes sign)
    | Except.error err => Except.error (SignError.engine err)
  | _ => Except.error SignError.invalidState

end SignSessionOTVariant

/-- Modelled from the spec: a deterministic all-or-nothing codec for an
opaque component (engine state, pre-signature, partial signature), whose
concrete byte format (serde + CBOR via `ciborium`) is external. -/
structure Codec (α : Type) where
  enc : α → Bytes
  dec : Bytes → Option α

/-- A codec is lawful when decode inverts encode. -/
def Codec.Lawful {α : Type} (c : Codec α) : Prop :=
  ∀ x, c.dec (c.enc x) = some x

namespace SignSessionOTVariant

variable {St PreSig PartialSig : Type}

/-- Tag byte of each round variant, in declaration order. -/
def roundTag : Round PreSig PartialSig → Nat
  | Round.Init => 0
  | Round.WaitMsg1 => 1
  | Round.WaitMsg2 => 2
  | Round.WaitMsg3 => 3
  | Round.Pre _ => 4
  | Round.WaitMsg4 _ => 5
  | Round.Failed => 6
  | Round.Finished => 7

/-- Payload bytes of a round variant: the encoded pre-signature for
`Pre`, the encoded partial signature for `WaitMsg4`, empty otherwise. -/
def roundPayload (cp : Codec PreSig) (cq : Codec PartialSig) :
    Round PreSig PartialSig → Bytes
  | Round.Pre p => cp.enc p
  | Round.WaitMsg4 q => cq.enc q
  | _ => []

/-- Rebuild a round variant from its tag and payload bytes. -/
def decodeRound (cp : Codec PreSig) (cq : Codec PartialSig)
    (tag : Nat) (payload : Bytes) : Option (Round PreSig PartialSig) :=
  match tag with
  | 0 => some Round.Init
  | 1 => some Round.WaitMsg1
  | 2 => some Round.WaitMsg2
  | 3 => some Round.WaitMsg3
  | 4 => (cp.dec payload).map Round.Pre
  | 5 => (cq.dec payload).map Round.WaitMsg4
  | 6 => some Round.Failed
  | 7 => some Round.Finished
  | _ => none

/-- Modelled from the spec: `SignSessionOTVariant::to_bytes`
(lines 68-75; the concrete CBOR layout of `ciborium` is external) - a
deterministic encoding covering the full tagged round payload and the
engine state: round tag, payload length, payload bytes, state bytes. -/
def to_bytes (cs : Codec St) (cp : Codec PreSig) (cq : Codec PartialSig)
    (s : SignSessionOTVariant St PreSig PartialSig) : Bytes :=
  let pb := roundPayload cp cq s.round
  roundTag s.round :: pb.length :: (pb ++ cs.enc s.state)

/-- Modelled from the spec: `SignSessionOTVariant::from_bytes`
(lines 78-81) - all-or-nothing decode of the session snapshot; any
malformed input yields `none`. -/
def from_bytes (cs : Codec St) (cp : Codec PreSig) (cq : Codec PartialSig)
    (bytes : Bytes) :
    Option (SignSessionOTVariant St PreSig PartialSig) :=
  match bytes with
  | tag :: n :: rest => do
    let r ← decodeRound cp cq tag (rest.take n)
    let st ← cs.dec (rest.drop n)
    some { state := st, round := r }
  | _ => none

end SignSessionOTVariant

/-- A concrete engine over `Nat` stand-ins for the opaque engine types,
used to evaluate the state machine on closed inputs. -/
def natEngine : Engine Unit Nat Nat Nat Nat where
  generate_msg1 st := (⟨st, []⟩, st + 1)
  handle_msg1 st _ _ := (Except.ok [], st + 1)
  handle_msg2 st _ _ := (Except.ok [], st + 1)
  handle_msg3 st _ := (Except.ok 7, st + 1)
  create_partial_signature pre h := (pre + h.length, ⟨pre, h⟩)
  combine_signatures p _ := Except.ok p
  split_bytes sig := ([sig], [sig])
  decode1 _ := []
  decode2 _ := []
  decode3 _ := []
  decode4 _ := []
  enc1 m := m.body
  enc2 m := m.body
  enc3 m := m.body
  enc4 m := m.body

/-- A concrete engine whose round handlers all fail, used to evaluate
the error paths of the state machine on closed inputs. -/
def failingEngine : Engine Unit Nat Nat Nat Nat :=
  { natEngine with
    handle_msg1 := fun st _ _ => (Except.error (), st + 1)
    handle_msg2 := fun st _ _ => (Except.error (), st + 1)
    handle_msg3 := fun st _ => (Except.error (), st + 1) }

/-- A concrete lawful codec for `Nat` components. -/
def natCodec : Codec Nat where
  enc n := [n]
  dec l := match l with
    | [n] => some n
    | _ => none

open SignSessionOTVariant

theorem natCodec_lawful : natCodec.Lawful := fun _ => rfl

/-- C9: the routing classification is fixed per message kind: every
round-1 message is broadcast (absent destination), every round-2 and
round-3 message is unicast to its `to_id` field, and all three report
their `from_id` field as the source party id. -/
theorem c9_routing_classification :
    (∀ m : SignMsg1, MessageRouting.src_party_id m = m.from_id ∧
      MessageRouting.dst_party_id m = (none : Option Nat)) ∧
    (∀ m : SignMsg2, MessageRouting.src_party_id m = m.from_id ∧
      MessageRouting.dst_party_id m = some m.to_id) ∧
    (∀ m : SignMsg3, MessageRouting.src_party_id m = m.from_id ∧
      MessageRouting.dst_party_id m = some m.to_id) :=
  ⟨fun _ => ⟨rfl, rfl⟩, fun _ => ⟨rfl, rfl⟩, fun _ => ⟨rfl, rfl⟩⟩

/-- C7: `create_first_message` succeeds exactly in `Init`, returning the
single envelope of the generated round-1 message and moving the round to
`WaitMsg1`; in every other round it fails with the invalid-state error
and leaves the session unchanged. -/
theorem c7_create_first_message {E St PreSig PartialSig Sig : Type}
    (eng : Engine E St PreSig PartialSig Sig)
    (s : SignSessionOTVariant St PreSig PartialSig) :
    (s.round = Round.Init →
      create_first_message eng s =
        (Except.ok (Message.new eng.enc1 (eng.generate_msg1 s.state).1),
         { state := (eng.generate_msg1 s.state).2, round := Round.WaitMsg1 })) ∧
    (s.round ≠ Round.Init →
      create_first_message eng s = (Except.error SignError.invalidState, s)) := by
  obtain ⟨st, r⟩ := s
  cases r <;> simp [create_first_message]

/-- Witness for C7 at concrete sessions in `Init` and in `WaitMsg2`. -/
theorem c7_witness :
    create_first_message natEngine
        (⟨0, Round.Init⟩ : SignSessionOTVariant Nat Nat Nat) =
      (Except.ok ⟨0, none, []⟩, ⟨1, Round.WaitMsg1⟩) ∧
    create_first_message natEngine
        (⟨0, Round.WaitMsg2⟩ : SignSessionOTVariant Nat Nat Nat) =
      (Except.error SignError.invalidState, ⟨0, Round.WaitMsg2⟩) :=
  ⟨(c7_create_first_message natEngine ⟨0, Round.Init⟩).1 rfl,
   (c7_create_first_message natEngine ⟨0, Round.WaitMsg2⟩).2 (by simp)⟩

/-- C10: the digest-length guard of `last_message` runs before the round
dispatch: in every round, a digest whose length is not 32 yields the
invalid-message-hash error - not the invalid-state or session-failed
error - and the session is returned unchanged. -/
theorem c10_digest_guard_first {E St PreSig PartialSig Sig : Type}
    (eng : Engine E St PreSig PartialSig Sig)
    (s : SignSessionOTVariant St PreSig PartialSig)
    (d : Bytes) (hd : d.length ≠ 32) :
    last_message eng s d = (Except.error SignError.invalidMessageHash, s) ∧
    (SignError.invalidMessageHash : SignError E) ≠ SignError.invalidState ∧
    (SignError.invalidMessageHash : SignError E) ≠ SignError.failed := by
  refine ⟨?_, by simp, by simp⟩
  simp [last_message, hd]

/-- Witness for C10 at a `Failed` session and the empty digest. -/
theorem c10_witness :
    ([] : Bytes).length ≠ 32 ∧
    last_message natEngine
        (⟨0, Round.Failed⟩ : SignSessionOTVariant Nat Nat Nat) [] =
      (Except.error SignError.invalidMessageHash, ⟨0, Round.Failed⟩) :=
  ⟨by decide,
   (c10_digest_guard_first natEngine ⟨0, Round.Failed⟩ [] (by decide)).1⟩

/-- C2: failure is sticky: on a session whose round is `Failed`,
`create_first_message`, `handle_messages` (any batch, any seed) and
`last_message` (any 32-byte digest) all return an error and leave the
session - round and engine state - unchanged, and `combine` on such a
session also returns an error. -/
theorem c2_sticky_failed {E St PreSig PartialSig Sig : Type}
    (eng : Engine E St PreSig PartialSig Sig)
    (s : SignSessionOTVariant St PreSig PartialSig)
    (h : s.round = Round.Failed) :
    create_first_message eng s = (Except.error SignError.invalidState, s) ∧
    (∀ msgs seed, handle_messages eng s msgs seed =
      (Except.error SignError.failed, s)) ∧
    (∀ d : Bytes, d.length = 32 →
      last_message eng s d = (Except.error SignError.invalidState, s)) ∧
    (∀ msgs, combine_partial_signature eng s msgs =
      Except.error SignError.invalidState) := by
  obtain ⟨st, r⟩ := s
  simp only [] at h
  subst h
  refine ⟨?_, fun msgs seed => ?_, fun d hd => ?_, fun msgs => ?_⟩
  · simp [create_first_message]
  · simp [handle_messages]
  · simp [last_message, hd]
  · simp [combine_partial_signature]

/-- Witness for C2 at a concrete `Failed` session. -/
theorem c2_witness :
    (⟨0, Round.Failed⟩ : SignSessionOTVariant Nat Nat Nat).round =
      Round.Failed ∧
    create_first_message natEngine
        (⟨0, Round.Failed⟩ : SignSessionOTVariant Nat Nat Nat) =
      (Except.error SignError.invalidState, ⟨0, Round.Failed⟩) ∧
    handle_messages natEngine
        (⟨0, Round.Failed⟩ : SignSessionOTVariant Nat Nat Nat) [] none =
      (Except.error SignError.failed, ⟨0, Round.Failed⟩) ∧
    last_message natEngine
        (⟨0, Round.Failed⟩ : SignSessionOTVariant Nat Nat Nat)
        (List.replicate 32 0) =
      (Except.error SignError.invalidState, ⟨0, Round.Failed⟩) ∧
    combine_partial_signature natEngine
        (⟨0, Round.Failed⟩ : SignSessionOTVariant Nat Nat Nat) [] =
      Except.error SignError.invalidState := by
  have h := c2_sticky_failed natEngine ⟨0, Round.Failed⟩ rfl
  exact ⟨rfl, h.1, h.2.1 [] none, h.2.2.1 (List.replicate 32 0) (by decide),
    h.2.2.2 []⟩

/-- C4: in `Pre`, a digest of the wrong length fails with the
invalid-message-hash error and leaves the session unchanged (round still
`Pre` with the same pre-signature), and a subsequent `last_message` on
the returned session with a 32-byte digest succeeds. -/
theorem c4_wrong_length_preserves_pre {E St PreSig PartialSig Sig : Type}
    (eng : Engine E St PreSig PartialSig Sig)
    (s : SignSessionOTVariant St PreSig PartialSig) (pre : PreSig)
    (hr : s.round = Round.Pre pre) (d : Bytes) (hd : d.length ≠ 32) :
    last_message eng s d = (Except.error SignError.invalidMessageHash, s) ∧
    (last_message eng s d).2.round = Round.Pre pre ∧
    (∀ d2 : Bytes, d2.length = 32 →
      (last_message eng (last_message eng s d).2 d2).1 =
        Except.ok (Message.new eng.enc4 (eng.create_partial_signature pre d2).2)) := by
  obtain ⟨st, r⟩ := s
  simp only [] at hr
  subst hr
  refine ⟨by simp [last_message, hd], by simp [last_message, hd], fun d2 hd2 => ?_⟩
  simp [last_message, hd, hd2]

/-- Witness for C4 at a concrete `Pre` session, the empty digest and a
32-byte digest. -/
theorem c4_witness :
    ([] : Bytes).length ≠ 32 ∧
    last_message natEngine
        (⟨0, Round.Pre 5⟩ : SignSessionOTVariant Nat Nat Nat) [] =
      (Except.error SignError.invalidMessageHash, ⟨0, Round.Pre 5⟩) ∧
    (last_message natEngine
        (last_message natEngine
          (⟨0, Round.Pre 5⟩ : SignSessionOTVariant Nat Nat Nat) []).2
        (List.replicate 32 1)).1 =
      Except.ok ⟨5, none, List.replicate 32 1⟩ := by
  have h := c4_wrong_length_preserves_pre natEngine ⟨0, Round.Pre 5⟩ 5 rfl []
    (by decide)
  exact ⟨by decide, h.1, by simpa using h.2.2 (List.replicate 32 1) (by decide)⟩

/-- C5: `combine` succeeds only in `WaitMsg4`: in every other round it
returns the invalid-state error, for every engine - so the engine's
signature-combination function is never consulted there.  The underlying
Rust method takes `self` by value, which the embedding mirrors by not
returning a session: the call consumes the session in every case. -/
theorem c5_combine_only_waitmsg4 {E St PreSig PartialSig Sig : Type}
    (eng : Engine E St PreSig PartialSig Sig)
    (s : SignSessionOTVariant St PreSig PartialSig)
    (h : ∀ p, s.round ≠ Round.WaitMsg4 p) (msgs : List Message) :
    combine_partial_signature eng s msgs = Except.error SignError.invalidState := by
  obtain ⟨st, r⟩ := s
  cases r <;> first
    | exact absurd rfl (h _)
    | simp [combine_partial_signature]

/-- Witness for C5: `combine` called in `Pre`, i.e. before
`last_message`, fails with the invalid-state error. -/
theorem c5_witness :
    combine_partial_signature natEngine
        (⟨0, Round.Pre 3⟩ : SignSessionOTVariant Nat Nat Nat) [] =
      Except.error SignError.invalidState :=
  c5_combine_only_waitmsg4 natEngine ⟨0, Round.Pre 3⟩ (by intro p; simp) []

/-- C6: with a 32-byte digest, `last_message` in `Pre` succeeds,
returning exactly one outbound message - the broadcast round-4 envelope
of the engine's partial-signature output - and moves the round to
`WaitMsg4` carrying that partial signature; in any round other than
`Pre` it fails with the invalid-state error and leaves the session
unchanged. -/
theorem c6_last_message {E St PreSig PartialSig Sig : Type}
    (eng : Engine E St PreSig PartialSig Sig)
    (s : SignSessionOTVariant St PreSig PartialSig)
    (d : Bytes) (hd : d.length = 32) :
    (∀ pre, s.round = Round.Pre pre →
      last_message eng s d =
        (Except.ok (Message.new eng.enc4 (eng.create_partial_signature pre d).2),
         { state := s.state,
           round := Round.WaitMsg4 (eng.create_partial_signature pre d).1 }) ∧
      (Message.new eng.enc4 (eng.create_partial_signature pre d).2).dst_party_id =
        none) ∧
    ((∀ pre, s.round ≠ Round.Pre pre) →
      last_message eng s d = (Except.error SignError.invalidState, s)) := by
  obtain ⟨st, r⟩ := s
  constructor
  · intro pre hr
    simp only [] at hr
    subst hr
    exact ⟨by simp [last_message, hd], rfl⟩
  · intro h
    cases r <;> first
      | exact absurd rfl (h _)
      | simp [last_message, hd]

/-- Witness for C6 at a concrete `Pre` session and a concrete `WaitMsg1`
session, with an all-zero 32-byte digest. -/
theorem c6_witness :
    (List.replicate 32 0).length = 32 ∧
    last_message natEngine
        (⟨9, Round.Pre 5⟩ : SignSessionOTVariant Nat Nat Nat)
        (List.replicate 32 0) =
      (Except.ok ⟨5, none, List.replicate 32 0⟩, ⟨9, Round.WaitMsg4 37⟩) ∧
    last_message natEngine
        (⟨9, Round.WaitMsg1⟩ : SignSessionOTVariant Nat Nat Nat)
        (List.replicate 32 0) =
      (Except.error SignError.invalidState, ⟨9, Round.WaitMsg1⟩) := by
  refine ⟨by decide, ?_, ?_⟩
  · have h := (c6_last_message natEngine ⟨9, Round.Pre 5⟩ (List.replicate 32 0)
      (by decide)).1 5 rfl
    simpa using h.1
  · exact (c6_last_message natEngine ⟨9, Round.WaitMsg1⟩ (List.replicate 32 0)
      (by decide)).2 (by intro pre; simp)

/-- C8: in `WaitMsg3`, when the engine's round-3 handler succeeds on the
decoded inbound batch, `handle_messages` returns an empty outbound batch
and the round becomes `Pre` carrying the handler's pre-signature (with
the handler's updated engine state). -/
theorem c8_waitmsg3_success {E St PreSig PartialSig Sig : Type}
    (eng : Engine E St PreSig PartialSig Sig)
    (s : SignSessionOTVariant St PreSig PartialSig)
    (msgs : List Message) (seed : Option Bytes) (pre : PreSig) (st' : St)
    (hr : s.round = Round.WaitMsg3)
    (hh : eng.handle_msg3 s.state (eng.decode3 msgs) = (Except.ok pre, st')) :
    handle_messages eng s msgs seed =
      (Except.ok [], { state := st', round := Round.Pre pre }) := by
  obtain ⟨st, r⟩ := s
  simp only [] at hr
  subst hr
  simp only [] at hh
  simp [handle_messages, hh]

/-- Witness for C8 at a concrete `WaitMsg3` session. -/
theorem c8_witness :
    (⟨0, Round.WaitMsg3⟩ : SignSessionOTVariant Nat Nat Nat).round =
      Round.WaitMsg3 ∧
    natEngine.handle_msg3 0 (natEngine.decode3 []) = (Except.ok 7, 1) ∧
    handle_messages natEngine
        (⟨0, Round.WaitMsg3⟩ : SignSessionOTVariant Nat Nat Nat) [] none =
      (Except.ok [], ⟨1, Round.Pre 7⟩) :=
  ⟨rfl, rfl,
   c8_waitmsg3_success natEngine ⟨0, Round.WaitMsg3⟩ [] none 7 1 rfl rfl⟩

/-- Counterexample to C1 as stated: in `WaitMsg3`, an engine error makes
`handle_messages` return the wrapped engine error, but the session's
round afterwards is still `WaitMsg3`, not `Failed` (the source's
`WaitMsg3` arm returns early with `?` and never assigns
`Round::Failed`). -/
theorem c1_counterexample :
    (handle_messages failingEngine
        (⟨0, Round.WaitMsg3⟩ : SignSessionOTVariant Nat Nat Nat) [] none).1 =
      Except.error (SignError.engine ()) ∧
    (handle_messages failingEngine
        (⟨0, Round.WaitMsg3⟩ : SignSessionOTVariant Nat Nat Nat) [] none).2.round =
      Round.WaitMsg3 ∧
    (Round.WaitMsg3 : Round Nat Nat) ≠ Round.Failed := by
  refine ⟨rfl, rfl, by simp⟩

/-- C1 amended: when the engine handler of a dispatched round fails,
`handle_messages` returns the wrapped engine error in all three handled
rounds, and the round afterwards is `Failed` for `WaitMsg1` and
`WaitMsg2` - but for `WaitMsg3` the round is left at `WaitMsg3`. -/
theorem c1_engine_error_dispatch {E St PreSig PartialSig Sig : Type}
    (eng : Engine E St PreSig PartialSig Sig)
    (s : SignSessionOTVariant St PreSig PartialSig)
    (msgs : List Message) (seed : Option Bytes) (err : E) (st' : St) :
    (s.round = Round.WaitMsg1 →
      eng.handle_msg1 s.state seed (eng.decode1 msgs) = (Except.error err, st') →
      handle_messages eng s msgs seed =
        (Except.error (SignError.engine err),
         { state := st', round := Round.Failed })) ∧
    (s.round = Round.WaitMsg2 →
      eng.handle_msg2 s.state seed (eng.decode2 msgs) = (Except.error err, st') →
      handle_messages eng s msgs seed =
        (Except.error (SignError.engine err),
         { state := st', round := Round.Failed })) ∧
    (s.round = Round.WaitMsg3 →
      eng.handle_msg3 s.state (eng.decode3 msgs) = (Except.error err, st') →
      handle_messages eng s msgs seed =
        (Except.error (SignError.engine err),
         { state := st', round := Round.WaitMsg3 })) := by
  obtain ⟨st, r⟩ := s
  refine ⟨fun hr hh => ?_, fun hr hh => ?_, fun hr hh => ?_⟩ <;>
    simp only [] at hr <;> subst hr <;> simp only [] at hh <;>
    simp [handle_messages, handle, hh]

/-- Witness for the amended C1 at concrete sessions in each of the three
handled rounds, with an engine whose handlers fail. -/
theorem c1_witness :
    handle_messages failingEngine
        (⟨0, Round.WaitMsg1⟩ : SignSessionOTVariant Nat Nat Nat) [] none =
      (Except.error (SignError.engine ()), ⟨1, Round.Failed⟩) ∧
    handle_messages failingEngine
        (⟨0, Round.WaitMsg2⟩ : SignSessionOTVariant Nat Nat Nat) [] none =
      (Except.error (SignError.engine ()), ⟨1, Round.Failed⟩) ∧
    handle_messages failingEngine
        (⟨0, Round.WaitMsg3⟩ : SignSessionOTVariant Nat Nat Nat) [] none =
      (Except.error (SignError.engine ()), ⟨1, Round.WaitMsg3⟩) :=
  ⟨(c1_engine_error_dispatch failingEngine ⟨0, Round.WaitMsg1⟩ [] none () 1).1
      rfl rfl,
   (c1_engine_error_dispatch failingEngine ⟨0, Round.WaitMsg2⟩ [] none () 1).2.1
      rfl rfl,
   (c1_engine_error_dispatch failingEngine ⟨0, Round.WaitMsg3⟩ [] none () 1).2.2
      rfl rfl⟩

/-- Decoding a round from its own tag and payload bytes recovers it,
given lawful payload codecs. -/
theorem decodeRound_roundTag {PreSig PartialSig : Type}
    (cp : Codec PreSig) (cq : Codec PartialSig)
    (hp : cp.Lawful) (hq : cq.Lawful) (r : Round PreSig PartialSig) :
    decodeRound cp cq (roundTag r) (roundPayload cp cq r) = some r := by
  cases r <;> simp [decodeRound, roundTag, roundPayload, hp _, hq _]

/-- C3: the serialization envelope round-trips: for every session value,
`from_bytes` applied to `to_bytes` succeeds and yields the same session
(for lawful codecs of the opaque components), and consequently every
operation on the decoded session has the same outcome and outputs as on
the original, given identical inputs. -/
theorem c3_roundtrip {St PreSig PartialSig : Type}
    (cs : Codec St) (cp : Codec PreSig) (cq : Codec PartialSig)
    (hs : cs.Lawful) (hp : cp.Lawful) (hq : cq.Lawful)
    (s : SignSessionOTVariant St PreSig PartialSig) :
    from_bytes cs cp cq (to_bytes cs cp cq s) = some s ∧
    (∀ (E Sig : Type) (eng : Engine E St PreSig PartialSig Sig)
        (s' : SignSessionOTVariant St PreSig PartialSig),
      from_bytes cs cp cq (to_bytes cs cp cq s) = some s' →
      create_first_message eng s' = create_first_message eng s ∧
      (∀ msgs seed, handle_messages eng s' msgs seed =
        handle_messages eng s msgs seed) ∧
      (∀ d, last_message eng s' d = last_message eng s d) ∧
      (∀ msgs, combine_partial_signature eng s' msgs =
        combine_partial_signature eng s msgs)) := by
  have hrt : from_bytes cs cp cq (to_bytes cs cp cq s) = some s := by
    obtain ⟨st, r⟩ := s
    simp only [to_bytes, from_bytes]
    rw [List.take_left, List.drop_left]
    simp [decodeRound_roundTag cp cq hp hq, hs st]
  refine ⟨hrt, fun E Sig eng s' h => ?_⟩
  rw [hrt] at h
  cases h
  exact ⟨rfl, fun _ _ => rfl, fun _ => rfl, fun _ => rfl⟩

/-- Witness for C3 at a concrete session carrying a pre-signature. -/
theorem c3_witness :
    from_bytes natCodec natCodec natCodec
        (to_bytes natCodec natCodec natCodec
          (⟨5, Round.Pre 3⟩ : SignSessionOTVariant Nat Nat Nat)) =
      some ⟨5, Round.Pre 3⟩ :=
  (c3_roundtrip natCodec natCodec natCodec natCodec_lawful natCodec_lawful
    natCodec_lawful ⟨5, Round.Pre 3⟩).1
